import Mathlib

/-!
Verification of the FVG paper-trading bot (src/main.py) against its
specification.  Prices and balances are modelled as rationals (the source
uses Python floats and only performs field arithmetic and comparisons on
them); candle timestamps are integers (epoch milliseconds).  The per-symbol
mutable dictionary `symbol_state` becomes the structure `SymState`, and the
body of `handle_symbol` (after the fetch/length guards, which belong to the
external candle source) becomes the pure transition `handle_symbol_step`,
split into one named phase per contiguous block of the source.
-/

namespace FVGBot

/-- CONFIG constant `RR` (src/main.py line 36). -/
def RR : ℚ := 1

/-- CONFIG constant `MIN_SL_PCT` (line 37). -/
def MIN_SL_PCT : ℚ := 1 / 1000

/-- CONFIG constant `TP_BUFFER` (line 38). -/
def TP_BUFFER : ℚ := 1 / 1000

/-- CONFIG constant `SL_BUFFER` (line 39). -/
def SL_BUFFER : ℚ := 1 / 1000

/-- CONFIG constant `RF_PERCENT` (line 48). -/
def RF_PERCENT : ℚ := 1 / 10

/-- A parsed candle (`fetch_candles`, lines 92-98).  `opn` is the source's
`open` field, renamed because `open` is a Lean keyword. -/
structure Candle where
  time : ℤ
  opn : ℚ
  high : ℚ
  low : ℚ
  close : ℚ
deriving DecidableEq

/-- Trade side, the `"BUY"` / `"SELL"` strings of the source. -/
inductive Side
  | BUY
  | SELL
deriving DecidableEq

/-- Result strings of `simulate_and_resolve_trade` (lines 193-201). -/
inductive Outcome
  | WIN
  | LOSS
  | OPEN
deriving DecidableEq

/-- A stored fair-value gap, the dict
`{"low": .., "high": .., "tapped": .., "created_at": ..}` (lines 284, 307). -/
structure FVG where
  low : ℚ
  high : ℚ
  tapped : Bool
  created_at : ℤ
deriving DecidableEq

/-- A paper trade, the dict
`{"side": .., "entry": .., "sl": .., "tp": .., "opened_at": ..}`
(lines 403, 456). -/
structure Trade where
  side : Side
  entry : ℚ
  sl : ℚ
  tp : ℚ
  opened_at : ℤ
deriving DecidableEq

/-- Per-symbol state, the `symbol_state[symbol]` dict (lines 68-76).
`buy_fvg_candle_time` starts as Python `None`, hence `Option ℤ`. -/
structure SymState where
  buy_fvg : Option FVG
  sell_fvg : Option FVG
  buy_trade : Option Trade
  sell_trade : Option Trade
  last_candle_time : ℤ
  buy_fvg_candle_time : Option ℤ
  sell_fvg_candle_time : Option ℤ
deriving DecidableEq

/-- `simulate_and_resolve_trade` (lines 186-201): scan the candles after the
entry candle; the `candles` argument here is the sub-list
`candles[entry_index+1:]` of the source, visited in order.  The source's two
separate `if` statements per side are equivalent to the nested conditional
because each `if` returns. -/
def simulate_and_resolve_trade (side : Side) (sl tp : ℚ) : List Candle → Outcome
  | [] => Outcome.OPEN
  | c :: rest =>
    match side with
    | Side.BUY =>
      if c.low ≤ sl then Outcome.LOSS
      else if c.high ≥ tp then Outcome.WIN
      else simulate_and_resolve_trade side sl tp rest
    | Side.SELL =>
      if c.high ≥ sl then Outcome.LOSS
      else if c.low ≤ tp then Outcome.WIN
      else simulate_and_resolve_trade side sl tp rest

/-- The module-level risk-lock state touched by `lock_weekly_rf_if_needed`
(globals `current_week`, `weekly_rf`, `siphoned_cash`, lines 60-62).
`current_week` starts as Python `None`. -/
structure RiskState where
  current_week : Option (ℤ × ℕ)
  weekly_rf : ℚ
  siphoned_cash : ℚ
deriving DecidableEq

/-- Python `round(x, 6)` (line 161), modelled as rounding `x` to the nearest
multiple of `10 ^ (-6)`. -/
def round6 (x : ℚ) : ℚ := (round (x * 1000000) : ℤ) / 1000000

/-- `lock_weekly_rf_if_needed` (lines 144-169).  The wall clock and the
balance read are external collaborators, so the computed week key and the
`get_real_balance()` result are passed in as arguments; the source's
`0.25` / `0.75` siphon split appears verbatim. -/
def lock_weekly_rf_if_needed (st : RiskState) (week : ℤ × ℕ)
    (real_balance : ℚ) : RiskState :=
  if some week ≠ st.current_week then
    { current_week := some week
      weekly_rf := round6 (real_balance * (75 / 100) * RF_PERCENT)
      siphoned_cash := st.siphoned_cash + real_balance * (25 / 100) }
  else st

/-- The BUY stop-tightening update of `handle_symbol` (lines 288-294):
`buffered_new_sl = new_low * (1 - SL_BUFFER)`, adopted only when strictly
greater than the current stop. -/
def tightenBuySL (sl new_low : ℚ) : ℚ :=
  let buffered_new_sl := new_low * (1 - SL_BUFFER)
  if buffered_new_sl > sl then buffered_new_sl else sl

/-- The SELL stop-tightening update of `handle_symbol` (lines 311-317):
`buffered_new_sl = new_high * (1 + SL_BUFFER)`, adopted only when strictly
less than the current stop. -/
def tightenSellSL (sl new_high : ℚ) : ℚ :=
  let buffered_new_sl := new_high * (1 + SL_BUFFER)
  if buffered_new_sl < sl then buffered_new_sl else sl

/-- The BUY FVG block of `handle_symbol` (lines 270, 276-294): on
`prev1.low > prev2.high`, record the detection time; register the gap
`{low = prev2.high, high = prev1.low, tapped = False}` when no buy trade is
open, otherwise offer `new_low = prev2.high` as a stop tightening. -/
def buyFvgPhase (st : SymState) (prev2 prev1 : Candle) : SymState :=
  if prev1.low > prev2.high then
    let st1 := { st with buy_fvg_candle_time := some prev1.time }
    match st1.buy_trade with
    | none =>
      { st1 with buy_fvg := some (FVG.mk prev2.high prev1.low false prev1.time) }
    | some bt =>
      { st1 with buy_trade := some { bt with sl := tightenBuySL bt.sl prev2.high } }
  else st

/-- The SELL FVG block of `handle_symbol` (lines 271, 299-317): mirrored,
with `new_high = prev2.low` and `new_low = prev1.high`. -/
def sellFvgPhase (st : SymState) (prev2 prev1 : Candle) : SymState :=
  if prev1.high < prev2.low then
    let st1 := { st with sell_fvg_candle_time := some prev1.time }
    match st1.sell_trade with
    | none =>
      { st1 with sell_fvg := some (FVG.mk prev1.high prev2.low false prev1.time) }
    | some t =>
      { st1 with sell_trade := some { t with sl := tightenSellSL t.sl prev2.low } }
  else st

/-- The BUY tap check of `handle_symbol` (lines 322-327): an untapped gap
becomes tapped on a candle other than its detection candle whose range
overlaps the gap inclusively. -/
def buyTapPhase (st : SymState) (last_closed : Candle) : SymState :=
  match st.buy_fvg with
  | some bf =>
    if bf.tapped = false then
      if some last_closed.time ≠ st.buy_fvg_candle_time then
        if last_closed.low ≤ bf.high ∧ last_closed.high ≥ bf.low then
          { st with buy_fvg := some { bf with tapped := true } }
        else st
      else st
    else st
  | none => st

/-- The SELL tap check of `handle_symbol` (lines 329-334). -/
def sellTapPhase (st : SymState) (last_closed : Candle) : SymState :=
  match st.sell_fvg with
  | some sf =>
    if sf.tapped = false then
      if some last_closed.time ≠ st.sell_fvg_candle_time then
        if last_closed.low ≤ sf.high ∧ last_closed.high ≥ sf.low then
          { st with sell_fvg := some { sf with tapped := true } }
        else st
      else st
    else st
  | none => st

/-- The BUY FVG invalidation of `handle_symbol` (lines 339-343): drop the
gap when the candle closes strictly below its low bound. -/
def buyInvalidationPhase (st : SymState) (last_closed : Candle) : SymState :=
  match st.buy_fvg with
  | some bf =>
    if last_closed.close < bf.low then { st with buy_fvg := none } else st
  | none => st

/-- The SELL FVG invalidation of `handle_symbol` (lines 345-349): drop the
gap when the candle closes strictly above its high bound. -/
def sellInvalidationPhase (st : SymState) (last_closed : Candle) : SymState :=
  match st.sell_fvg with
  | some sf =>
    if last_closed.close > sf.high then { st with sell_fvg := none } else st
  | none => st

/-- The BUY confirmation of `handle_symbol` (lines 355-366 and the
paper-trade branch 402-406): on a tapped gap, with no open buy trade, on a
non-detection candle closing above the gap high, the gap is cleared first
(line 362) and the trade is opened only if the stop-distance fraction
reaches `MIN_SL_PCT`.  The `USE_REAL_TRADING` branch instead routes the
same parameters to the order pipeline modelled by `buyRealEntry` below and
never writes `buy_trade`. -/
def buyConfirmPhase (st : SymState) (last_closed : Candle) : SymState :=
  match st.buy_fvg with
  | some bf =>
    if bf.tapped = true ∧ st.buy_trade = none ∧
        some last_closed.time ≠ st.buy_fvg_candle_time then
      if last_closed.close > bf.high then
        let entry := last_closed.close
        let sl := bf.low * (1 - SL_BUFFER)
        let st1 := { st with buy_fvg := none }
        let sl_pct := (entry - sl) / entry
        if sl_pct ≥ MIN_SL_PCT then
          let tp := entry + (entry - sl) * RR + entry * TP_BUFFER
          { st1 with buy_trade := some (Trade.mk Side.BUY entry sl tp last_closed.time) }
        else st1
      else st
    else st
  | none => st

/-- The SELL confirmation of `handle_symbol` (lines 409-418 and the
paper-trade branch 455-459), mirrored. -/
def sellConfirmPhase (st : SymState) (last_closed : Candle) : SymState :=
  match st.sell_fvg with
  | some sf =>
    if sf.tapped = true ∧ st.sell_trade = none ∧
        some last_closed.time ≠ st.sell_fvg_candle_time then
      if last_closed.close < sf.low then
        let entry := last_closed.close
        let sl := sf.high * (1 + SL_BUFFER)
        let st1 := { st with sell_fvg := none }
        let sl_pct := (sl - entry) / entry
        if sl_pct ≥ MIN_SL_PCT then
          let tp := entry - (sl - entry) * RR - entry * TP_BUFFER
          { st1 with sell_trade := some (Trade.mk Side.SELL entry sl tp last_closed.time) }
        else st1
      else st
    else st
  | none => st

/-- The state transition of `handle_symbol` for one processed candle
(lines 258-459): `prev1` is `closed_candles[-1]` (also `last_closed`) and
`prev2` is `closed_candles[-3]`.  The stale-candle guard (line 263) returns
the state unchanged; otherwise `last_candle_time` is updated (line 265) and
the phases run in source order: BUY FVG, SELL FVG, taps, invalidations,
confirmations. -/
def handle_symbol_step (st : SymState) (prev2 prev1 : Candle) : SymState :=
  if prev1.time = st.last_candle_time then st
  else
    sellConfirmPhase
      (buyConfirmPhase
        (sellInvalidationPhase
          (buyInvalidationPhase
            (sellTapPhase
              (buyTapPhase
                (sellFvgPhase
                  (buyFvgPhase { st with last_candle_time := prev1.time }
                    prev2 prev1)
                  prev2 prev1)
                prev1)
              prev1)
            prev1)
          prev1)
        prev1)
      prev1

/-- `round_qty` (lines 183-184): `math.floor(qty / step) * step`. -/
def round_qty (qty step : ℚ) : ℚ := (⌊qty / step⌋ : ℚ) * step

/-- `calculate_liquidation_price` (lines 203-221).  The source divides
`available_balance` by `position_value = entry * qty`; with a zero position
value Python raises `ZeroDivisionError`, modelled as `none`. -/
def calculate_liquidation_price (entry qty : ℚ) (side : Side)
    (leverage available_balance : ℚ) : Option ℚ :=
  let position_value := entry * qty
  if position_value = 0 then none
  else
    let im := 1 / leverage
    let mmr : ℚ := 5 / 1000
    let extra_margin := available_balance / position_value
    let effective_buffer := im + extra_margin - mmr
    if side = Side.BUY then some (entry * (1 - effective_buffer))
    else some (entry * (1 + effective_buffer))

/-- The outcome of the real-trading BUY entry pipeline; `crashed` stands
for the uncaught `ZeroDivisionError` that aborts `handle_symbol` (it is
caught only by the per-symbol handler in `main`, line 565), and
`skipped_liquidation` for the early `return` at line 400 that likewise ends
the symbol tick before the SELL block runs. -/
inductive EntryResult
  | placed (qty : ℚ)
  | skipped_liquidation
  | crashed
deriving DecidableEq

/-- The real-trading BUY entry pipeline of `handle_symbol`
(lines 382-401): size the position from the frozen risk, round to the
quantity step, estimate the liquidation price, and veto stops within
`0.003` of it. -/
def buyRealEntry (weekly_rf entry sl step leverage available_balance : ℚ) :
    EntryResult :=
  let raw_qty := weekly_rf / |entry - sl|
  let qty := round_qty raw_qty step
  match calculate_liquidation_price entry qty Side.BUY leverage
      available_balance with
  | none => EntryResult.crashed
  | some lp =>
    let distance_to_lp_pct := |(sl - lp) / entry|
    if distance_to_lp_pct < 3 / 1000 then EntryResult.skipped_liquidation
    else EntryResult.placed qty

/-- The parameter validation of `place_real_trade` (lines 488-505): the
frozen risk must be positive, the stop distance nonzero and the quantity
positive, otherwise the order is skipped.  (The API calls themselves are
the external execution gateway.) -/
def place_real_trade_accepts (frozen_risk entry sl qty : ℚ) : Bool :=
  if frozen_risk ≤ 0 then false
  else if |entry - sl| ≤ 0 then false
  else if qty ≤ 0 then false
  else true

/-- Modelled from the spec: the ledger-balance update on trade resolution is
not present in src/main.py (the `balance` global there is initialised and
logged but never updated; the spec attributes the update to the trade
lifecycle, section 4.3): on LOSS the balance decreases by `riskAmount`, on
WIN it increases by `riskAmount * reward`, and an OPEN trade leaves it
unchanged. -/
def applyResolution (bal riskAmount reward : ℚ) : Outcome → ℚ
  | Outcome.WIN => bal + riskAmount * reward
  | Outcome.LOSS => bal - riskAmount
  | Outcome.OPEN => bal

/-- C9: the ledger balance increases by `riskAmount * reward` on a WIN and
decreases by `riskAmount` on a LOSS, and with `reward = 1` a WIN followed
by an equal-and-opposite LOSS with the same `riskAmount` returns the
balance exactly to its pre-sequence value. -/
theorem ledger_round_trip (bal riskAmount reward : ℚ) :
    applyResolution bal riskAmount reward Outcome.WIN = bal + riskAmount * reward
    ∧ applyResolution bal riskAmount reward Outcome.LOSS = bal - riskAmount
    ∧ applyResolution (applyResolution bal riskAmount 1 Outcome.WIN) riskAmount 1
        Outcome.LOSS = bal := by
  refine ⟨rfl, rfl, ?_⟩
  show bal + riskAmount * 1 - riskAmount = bal
  ring

/-- C2: on each candle after entry, `simulate_and_resolve_trade` resolves a
Buy trade LOSS if `candle.low ≤ stopLoss`, else WIN if
`candle.high ≥ takeProfit` (Sell mirrored), and a candle whose range
satisfies both the stop and the target condition resolves LOSS, never WIN:
the stop is checked first. -/
theorem trade_resolution_rule (sl tp : ℚ) (c : Candle) (rest : List Candle) :
    (simulate_and_resolve_trade Side.BUY sl tp (c :: rest) =
      if c.low ≤ sl then Outcome.LOSS
      else if c.high ≥ tp then Outcome.WIN
      else simulate_and_resolve_trade Side.BUY sl tp rest)
    ∧ (simulate_and_resolve_trade Side.SELL sl tp (c :: rest) =
      if c.high ≥ sl then Outcome.LOSS
      else if c.low ≤ tp then Outcome.WIN
      else simulate_and_resolve_trade Side.SELL sl tp rest)
    ∧ (c.low ≤ sl → c.high ≥ tp →
      simulate_and_resolve_trade Side.BUY sl tp (c :: rest) = Outcome.LOSS)
    ∧ (c.high ≥ sl → c.low ≤ tp →
      simulate_and_resolve_trade Side.SELL sl tp (c :: rest) = Outcome.LOSS) := by
  refine ⟨rfl, rfl, ?_, ?_⟩ <;> intro h1 h2 <;>
    simp [simulate_and_resolve_trade, h1, h2]

/-- Witness for C2: a candle spanning both stop and target resolves LOSS on
both sides. -/
theorem trade_resolution_rule_witness :
    simulate_and_resolve_trade Side.BUY 5 10 [Candle.mk 0 0 12 4 6] = Outcome.LOSS
    ∧ simulate_and_resolve_trade Side.SELL 10 5 [Candle.mk 0 0 12 4 6] = Outcome.LOSS := by
  constructor
  · exact (trade_resolution_rule 5 10 (Candle.mk 0 0 12 4 6) []).2.2.1
      (by norm_num) (by norm_num)
  · exact (trade_resolution_rule 10 5 (Candle.mk 0 0 12 4 6) []).2.2.2
      (by norm_num) (by norm_num)

/-- C8: a stored bullish gap is discarded exactly when the candle closes
strictly below `gap.low`, and a stored bearish gap exactly when the candle
closes strictly above `gap.high`; otherwise the gap stays in place. -/
theorem fvg_invalidation_rule (st : SymState) (c : Candle) :
    (∀ bf, st.buy_fvg = some bf →
      (buyInvalidationPhase st c).buy_fvg =
        if c.close < bf.low then none else some bf)
    ∧ (∀ sf, st.sell_fvg = some sf →
      (sellInvalidationPhase st c).sell_fvg =
        if c.close > sf.high then none else some sf) := by
  constructor
  · intro bf hbf
    unfold buyInvalidationPhase
    rw [hbf]
    split_ifs with h <;> simp [hbf, h]
  · intro sf hsf
    unfold sellInvalidationPhase
    rw [hsf]
    split_ifs with h <;> simp [hsf, h]

/-- Witness for C8: a close of 9 below a bullish gap low of 10 discards the
gap; a close of 21/2 not above a bearish gap high of 11 keeps it. -/
theorem fvg_invalidation_rule_witness :
    (buyInvalidationPhase
      (SymState.mk (some (FVG.mk 10 11 false 1)) none none none 0 (some 1) none)
      (Candle.mk 2 9 9 9 9)).buy_fvg = none
    ∧ (sellInvalidationPhase
      (SymState.mk none (some (FVG.mk 10 11 false 1)) none none 0 none (some 1))
      (Candle.mk 2 9 11 9 (21/2))).sell_fvg = some (FVG.mk 10 11 false 1) := by
  constructor
  · rw [(fvg_invalidation_rule
      (SymState.mk (some (FVG.mk 10 11 false 1)) none none none 0 (some 1) none)
      (Candle.mk 2 9 9 9 9)).1 (FVG.mk 10 11 false 1) rfl]
    norm_num
  · rw [(fvg_invalidation_rule
      (SymState.mk none (some (FVG.mk 10 11 false 1)) none none 0 none (some 1))
      (Candle.mk 2 9 11 9 (21/2))).2 (FVG.mk 10 11 false 1) rfl]
    norm_num

/-- C6: `lock_weekly_rf_if_needed` on a fresh period key adds
`s * accountBalance` (with `s = 25/100`) to the siphoned total, locks
`round(accountBalance * (1 - s) * RF_PERCENT, 6)` and stores the new key;
on an unchanged key it is a no-op returning the state untouched. -/
theorem lock_weekly_rf_cases (st : RiskState) (week : ℤ × ℕ) (bal : ℚ) :
    (some week ≠ st.current_week →
      (lock_weekly_rf_if_needed st week bal).current_week = some week
      ∧ (lock_weekly_rf_if_needed st week bal).weekly_rf =
          round6 (bal * (1 - 25 / 100) * RF_PERCENT)
      ∧ (lock_weekly_rf_if_needed st week bal).siphoned_cash =
          st.siphoned_cash + (25 / 100) * bal)
    ∧ (some week = st.current_week →
      lock_weekly_rf_if_needed st week bal = st) := by
  constructor
  · intro h
    unfold lock_weekly_rf_if_needed
    rw [if_pos h]
    refine ⟨rfl, ?_, ?_⟩
    · have he : (1 - 25 / 100 : ℚ) = 75 / 100 := by norm_num
      rw [he]
    · show st.siphoned_cash + bal * (25 / 100) = st.siphoned_cash + (25 / 100) * bal
      ring
  · intro h
    unfold lock_weekly_rf_if_needed
    rw [if_neg (by simp [h])]

/-- Witness for C6: from a fresh state with balance 1000, week (2026, 41)
locks rf 75 and siphons 250; calling again with the same stored week is a
no-op. -/
theorem lock_weekly_rf_cases_witness :
    (lock_weekly_rf_if_needed (RiskState.mk none 0 0) (2026, 41) 1000).current_week
        = some (2026, 41)
    ∧ (lock_weekly_rf_if_needed (RiskState.mk none 0 0) (2026, 41) 1000).weekly_rf = 75
    ∧ (lock_weekly_rf_if_needed (RiskState.mk none 0 0) (2026, 41) 1000).siphoned_cash = 250
    ∧ lock_weekly_rf_if_needed (RiskState.mk (some (2026, 41)) 75 250) (2026, 41) 77
        = RiskState.mk (some (2026, 41)) 75 250 := by
  have h := (lock_weekly_rf_cases (RiskState.mk none 0 0) (2026, 41) 1000).1
    (by simp)
  refine ⟨h.1, ?_, ?_, ?_⟩
  · rw [h.2.1]
    show round6 (1000 * (1 - 25 / 100) * RF_PERCENT) = 75
    rw [show (1000 * (1 - 25 / 100) * RF_PERCENT : ℚ) = 75 by norm_num [RF_PERCENT]]
    unfold round6
    rw [round_eq]
    norm_num
  · rw [h.2.2]
    norm_num
  · exact (lock_weekly_rf_cases (RiskState.mk (some (2026, 41)) 75 250)
      (2026, 41) 77).2 rfl

/-- C1: on a detection window processed with no Buy trade open, a bullish
gap is registered iff `prev1.low > prev2.high` (`prev1` is the newest and
`prev2` the oldest of the three-candle window; the middle candle is not
consulted), with low bound `prev2.high` and high bound `prev1.low`, never
the reverse assignment; when the condition fails the stored gap is
untouched. -/
theorem buy_fvg_registration_iff (st : SymState) (prev2 prev1 : Candle)
    (h : st.buy_trade = none) :
    (buyFvgPhase st prev2 prev1).buy_fvg =
      if prev1.low > prev2.high then
        some (FVG.mk prev2.high prev1.low false prev1.time)
      else st.buy_fvg := by
  obtain ⟨bfv, sfv, btr, strd, lct, bft, sft⟩ := st
  change btr = none at h
  subst h
  by_cases hc : prev1.low > prev2.high <;> simp [buyFvgPhase, hc]

/-- Witness for C1: the spec fixture, prev2 high 10 and prev1 low 51/5,
registers the bullish gap with bounds 10 and 51/5. -/
theorem buy_fvg_registration_iff_witness :
    (buyFvgPhase (SymState.mk none none none none 0 none none)
      (Candle.mk 0 9 10 9 (19/2)) (Candle.mk 2 (21/2) 11 (51/5) (54/5))).buy_fvg =
      some (FVG.mk 10 (51/5) false 2) := by
  rw [buy_fvg_registration_iff _ _ _ rfl]
  norm_num

/-- C10: with no trade open on a side, a newly detected gap on that side
overwrites the stored gap unconditionally — there is no condition on the
previous slot contents, so also a tapped gap — and the replacement carries
`tapped = false`. -/
theorem gap_overwrite_unconditional (st : SymState) (prev2 prev1 : Candle) :
    (st.buy_trade = none → prev1.low > prev2.high →
      (buyFvgPhase st prev2 prev1).buy_fvg =
        some (FVG.mk prev2.high prev1.low false prev1.time))
    ∧ (st.sell_trade = none → prev1.high < prev2.low →
      (sellFvgPhase st prev2 prev1).sell_fvg =
        some (FVG.mk prev1.high prev2.low false prev1.time)) := by
  obtain ⟨bfv, sfv, btr, strd, lct, bft, sft⟩ := st
  constructor
  · intro h hc
    change btr = none at h
    subst h
    simp [buyFvgPhase, hc]
  · intro h hc
    change strd = none at h
    subst h
    simp [sellFvgPhase, hc]

/-- Witness for C10: a stored tapped bullish gap is overwritten by a new
detection and the replacement is untapped. -/
theorem gap_overwrite_unconditional_witness :
    (buyFvgPhase
      (SymState.mk (some (FVG.mk 5 6 true 1)) none none none 0 (some 1) none)
      (Candle.mk 4 0 20 19 20) (Candle.mk 6 0 22 21 22)).buy_fvg =
      some (FVG.mk 20 21 false 6) := by
  exact (gap_overwrite_unconditional _ _ _).1 rfl (by norm_num)

/-- C3: stop-loss tightening is monotone in the favorable direction: one
tightening event never lowers a Buy stop nor raises a Sell stop, a
candidate that is not strictly more favorable leaves the stop unchanged,
any sequence of events keeps the Buy stop at or above (Sell at or below)
its starting value, and the FVG phases preserve this on the stored open
trade. -/
theorem sl_tightening_monotone (sl x : ℚ) (events : List ℚ)
    (st : SymState) (prev2 prev1 : Candle) :
    sl ≤ tightenBuySL sl x
    ∧ tightenSellSL sl x ≤ sl
    ∧ (x * (1 - SL_BUFFER) ≤ sl → tightenBuySL sl x = sl)
    ∧ (sl ≤ x * (1 + SL_BUFFER) → tightenSellSL sl x = sl)
    ∧ sl ≤ List.foldl tightenBuySL sl events
    ∧ List.foldl tightenSellSL sl events ≤ sl
    ∧ (∀ bt, st.buy_trade = some bt →
        ∃ bt', (buyFvgPhase st prev2 prev1).buy_trade = some bt' ∧ bt.sl ≤ bt'.sl)
    ∧ (∀ t, st.sell_trade = some t →
        ∃ t', (sellFvgPhase st prev2 prev1).sell_trade = some t' ∧ t'.sl ≤ t.sl) := by
  have hb : ∀ s y : ℚ, s ≤ tightenBuySL s y := by
    intro s y
    simp only [tightenBuySL]
    split_ifs with h
    · exact le_of_lt h
    · exact le_rfl
  have hs : ∀ s y : ℚ, tightenSellSL s y ≤ s := by
    intro s y
    simp only [tightenSellSL]
    split_ifs with h
    · exact le_of_lt h
    · exact le_rfl
  refine ⟨hb sl x, hs sl x, ?_, ?_, ?_, ?_, ?_, ?_⟩
  · intro h
    simp only [tightenBuySL]
    rw [if_neg (not_lt.mpr h)]
  · intro h
    simp only [tightenSellSL]
    rw [if_neg (not_lt.mpr h)]
  · induction events generalizing sl with
    | nil => exact le_rfl
    | cons e es ih => exact le_trans (hb sl e) (ih (tightenBuySL sl e))
  · induction events generalizing sl with
    | nil => exact le_rfl
    | cons e es ih => exact le_trans (ih (tightenSellSL sl e)) (hs sl e)
  · intro bt hbt
    by_cases hc : prev1.low > prev2.high
    · refine ⟨{ bt with sl := tightenBuySL bt.sl prev2.high }, ?_, hb bt.sl prev2.high⟩
      obtain ⟨bfv, sfv, btr, strd, lct, bft, sft⟩ := st
      change btr = some bt at hbt
      subst hbt
      simp [buyFvgPhase, hc]
    · exact ⟨bt, by simp [buyFvgPhase, hc, hbt], le_rfl⟩
  · intro t ht
    by_cases hc : prev1.high < prev2.low
    · refine ⟨{ t with sl := tightenSellSL t.sl prev2.low }, ?_, hs t.sl prev2.low⟩
      obtain ⟨bfv, sfv, btr, strd, lct, bft, sft⟩ := st
      change strd = some t at ht
      subst ht
      simp [sellFvgPhase, hc]
    · exact ⟨t, by simp [sellFvgPhase, hc, ht], le_rfl⟩

/-- Witness for C3: an unfavorable candidate (buffered 9990/200 below a Buy
stop of 100, buffered 2002/10 above a Sell stop of 100) leaves each stop
unchanged. -/
theorem sl_tightening_monotone_witness :
    tightenBuySL 100 50 = 100 ∧ tightenSellSL 100 200 = 100 := by
  constructor
  · exact (sl_tightening_monotone 100 50 []
      (SymState.mk none none none none 0 none none)
      (Candle.mk 0 0 0 0 0) (Candle.mk 0 0 0 0 0)).2.2.1 (by norm_num [SL_BUFFER])
  · exact (sl_tightening_monotone 100 200 []
      (SymState.mk none none none none 0 none none)
      (Candle.mk 0 0 0 0 0) (Candle.mk 0 0 0 0 0)).2.2.2.1 (by norm_num [SL_BUFFER])

/-- C5: a confirmation attempt on a tapped gap (close beyond the far
boundary, on a non-detection candle, with the side's trade slot empty)
clears the gap slot whether the entry is accepted or rejected; in
particular a rejection for a stop-distance fraction below `MIN_SL_PCT`
leaves the gap slot empty and the trade slot still empty. -/
theorem gap_consumed_on_confirmation (st : SymState) (c : Candle) :
    (∀ bf, st.buy_fvg = some bf → bf.tapped = true → st.buy_trade = none →
      some c.time ≠ st.buy_fvg_candle_time → c.close > bf.high →
      ((buyConfirmPhase st c).buy_fvg = none
        ∧ ((c.close - bf.low * (1 - SL_BUFFER)) / c.close < MIN_SL_PCT →
            (buyConfirmPhase st c).buy_trade = none)))
    ∧ (∀ sf, st.sell_fvg = some sf → sf.tapped = true → st.sell_trade = none →
      some c.time ≠ st.sell_fvg_candle_time → c.close < sf.low →
      ((sellConfirmPhase st c).sell_fvg = none
        ∧ ((sf.high * (1 + SL_BUFFER) - c.close) / c.close < MIN_SL_PCT →
            (sellConfirmPhase st c).sell_trade = none))) := by
  constructor
  · intro bf hbf ht htr hne hc
    simp only [buyConfirmPhase, hbf]
    rw [if_pos ⟨ht, htr, hne⟩, if_pos hc]
    constructor
    · split_ifs with h <;> rfl
    · intro hrej
      rw [if_neg (not_le.mpr hrej)]
      exact htr
  · intro sf hsf ht htr hne hc
    simp only [sellConfirmPhase, hsf]
    rw [if_pos ⟨ht, htr, hne⟩, if_pos hc]
    constructor
    · split_ifs with h <;> rfl
    · intro hrej
      rw [if_neg (not_le.mpr hrej)]
      exact htr

/-- Witness for C5: a confirmation attempt whose stop-distance fraction is
below the minimum (here a negative fraction) consumes the gap and opens no
trade. -/
theorem gap_consumed_on_confirmation_witness :
    (buyConfirmPhase
      (SymState.mk (some (FVG.mk (-10) (-5) true 1)) none none none 0 (some 1) none)
      (Candle.mk 2 0 0 (-2) (-1))).buy_fvg = none
    ∧ (buyConfirmPhase
      (SymState.mk (some (FVG.mk (-10) (-5) true 1)) none none none 0 (some 1) none)
      (Candle.mk 2 0 0 (-2) (-1))).buy_trade = none := by
  have h := (gap_consumed_on_confirmation
    (SymState.mk (some (FVG.mk (-10) (-5) true 1)) none none none 0 (some 1) none)
    (Candle.mk 2 0 0 (-2) (-1))).1 (FVG.mk (-10) (-5) true 1) rfl rfl rfl
    (by simp) (by norm_num)
  exact ⟨h.1, h.2 (by norm_num [SL_BUFFER, MIN_SL_PCT])⟩

/-- C7 (code bug): when the risk-amount sizing rounds the quantity to zero
at the instrument's step, `handle_symbol` reaches
`calculate_liquidation_price` with `qty = 0`, whose division by
`position_value = entry * qty = 0` raises `ZeroDivisionError` (modelled as
the `crashed` result), aborting the whole symbol tick — even though
`place_real_trade` itself carries a `qty <= 0` rejection guard that this
path never reaches.  Concretely: frozen risk 1/2, entry 100, stop 99,
quantity step 1 gives raw quantity 1/2, rounded quantity 0, and the
pipeline crashes rather than rejecting only that entry. -/
theorem qty_zero_crashes_before_guard :
    round_qty ((1 / 2 : ℚ) / |(100 : ℚ) - 99|) 1 = 0
    ∧ buyRealEntry (1 / 2) 100 99 1 100 50 = EntryResult.crashed
    ∧ place_real_trade_accepts (1 / 2) 100 99 0 = false := by
  have habs : |(100 : ℚ) - 99| = 1 := by norm_num
  have hq : round_qty ((1 / 2 : ℚ) / |(100 : ℚ) - 99|) 1 = 0 := by
    rw [habs]
    simp only [round_qty]
    norm_num
  refine ⟨hq, ?_, ?_⟩
  · simp only [buyRealEntry, hq]
    simp only [calculate_liquidation_price]
    norm_num
  · simp only [place_real_trade_accepts]
    norm_num

/-- The SELL FVG block does not touch the buy-side gap slot. -/
theorem sellFvgPhase_buy_fvg (st : SymState) (p2 p1 : Candle) :
    (sellFvgPhase st p2 p1).buy_fvg = st.buy_fvg := by
  obtain ⟨bfv, sfv, btr, strd, lct, bft, sft⟩ := st
  by_cases hc : p1.high < p2.low
  · cases strd <;> simp [sellFvgPhase, hc]
  · simp [sellFvgPhase, hc]

/-- The SELL tap check does not touch the buy-side gap slot. -/
theorem sellTapPhase_buy_fvg (st : SymState) (c : Candle) :
    (sellTapPhase st c).buy_fvg = st.buy_fvg := by
  obtain ⟨bfv, sfv, btr, strd, lct, bft, sft⟩ := st
  cases sfv with
  | none => simp [sellTapPhase]
  | some sf => simp only [sellTapPhase]; split_ifs <;> rfl

/-- The SELL invalidation does not touch the buy-side gap slot. -/
theorem sellInvalidationPhase_buy_fvg (st : SymState) (c : Candle) :
    (sellInvalidationPhase st c).buy_fvg = st.buy_fvg := by
  obtain ⟨bfv, sfv, btr, strd, lct, bft, sft⟩ := st
  cases sfv with
  | none => simp [sellInvalidationPhase]
  | some sf => simp only [sellInvalidationPhase]; split_ifs <;> rfl

/-- The SELL confirmation does not touch the buy-side gap slot. -/
theorem sellConfirmPhase_buy_fvg (st : SymState) (c : Candle) :
    (sellConfirmPhase st c).buy_fvg = st.buy_fvg := by
  obtain ⟨bfv, sfv, btr, strd, lct, bft, sft⟩ := st
  cases sfv with
  | none => simp [sellConfirmPhase]
  | some sf => simp only [sellConfirmPhase]; split_ifs <;> rfl

/-- The BUY FVG block does not touch the sell-side gap slot. -/
theorem buyFvgPhase_sell_fvg (st : SymState) (p2 p1 : Candle) :
    (buyFvgPhase st p2 p1).sell_fvg = st.sell_fvg := by
  obtain ⟨bfv, sfv, btr, strd, lct, bft, sft⟩ := st
  by_cases hc : p1.low > p2.high
  · cases btr <;> simp [buyFvgPhase, hc]
  · simp [buyFvgPhase, hc]

/-- The BUY tap check does not touch the sell-side gap slot. -/
theorem buyTapPhase_sell_fvg (st : SymState) (c : Candle) :
    (buyTapPhase st c).sell_fvg = st.sell_fvg := by
  obtain ⟨bfv, sfv, btr, strd, lct, bft, sft⟩ := st
  cases bfv with
  | none => simp [buyTapPhase]
  | some bf => simp only [buyTapPhase]; split_ifs <;> rfl

/-- The BUY invalidation does not touch the sell-side gap slot. -/
theorem buyInvalidationPhase_sell_fvg (st : SymState) (c : Candle) :
    (buyInvalidationPhase st c).sell_fvg = st.sell_fvg := by
  obtain ⟨bfv, sfv, btr, strd, lct, bft, sft⟩ := st
  cases bfv with
  | none => simp [buyInvalidationPhase]
  | some bf => simp only [buyInvalidationPhase]; split_ifs <;> rfl

/-- The BUY confirmation does not touch the sell-side gap slot. -/
theorem buyConfirmPhase_sell_fvg (st : SymState) (c : Candle) :
    (buyConfirmPhase st c).sell_fvg = st.sell_fvg := by
  obtain ⟨bfv, sfv, btr, strd, lct, bft, sft⟩ := st
  cases bfv with
  | none => simp [buyConfirmPhase]
  | some bf => simp only [buyConfirmPhase]; split_ifs <;> rfl

/-- The BUY FVG block either leaves the buy gap slot unchanged or writes
the freshly detected gap, whose creation time is `p1.time`. -/
theorem buyFvgPhase_buy_fvg_cases (st : SymState) (p2 p1 : Candle) :
    (buyFvgPhase st p2 p1).buy_fvg = st.buy_fvg ∨
    (buyFvgPhase st p2 p1).buy_fvg = some (FVG.mk p2.high p1.low false p1.time) := by
  obtain ⟨bfv, sfv, btr, strd, lct, bft, sft⟩ := st
  by_cases hc : p1.low > p2.high
  · cases btr with
    | none => right; simp [buyFvgPhase, hc]
    | some bt => left; simp [buyFvgPhase, hc]
  · left; simp [buyFvgPhase, hc]

/-- The SELL FVG block either leaves the sell gap slot unchanged or writes
the freshly detected gap, whose creation time is `p1.time`. -/
theorem sellFvgPhase_sell_fvg_cases (st : SymState) (p2 p1 : Candle) :
    (sellFvgPhase st p2 p1).sell_fvg = st.sell_fvg ∨
    (sellFvgPhase st p2 p1).sell_fvg = some (FVG.mk p1.high p2.low false p1.time) := by
  obtain ⟨bfv, sfv, btr, strd, lct, bft, sft⟩ := st
  by_cases hc : p1.high < p2.low
  · cases strd with
    | none => right; simp [sellFvgPhase, hc]
    | some t => left; simp [sellFvgPhase, hc]
  · left; simp [sellFvgPhase, hc]

/-- The BUY tap check either leaves the buy gap slot unchanged or marks the
stored gap tapped, keeping its bounds and creation time. -/
theorem buyTapPhase_buy_fvg_cases (st : SymState) (c : Candle) :
    (buyTapPhase st c).buy_fvg = st.buy_fvg ∨
    ∃ bf, st.buy_fvg = some bf ∧
      (buyTapPhase st c).buy_fvg = some (FVG.mk bf.low bf.high true bf.created_at) := by
  obtain ⟨bfv, sfv, btr, strd, lct, bft, sft⟩ := st
  cases bfv with
  | none => left; simp [buyTapPhase]
  | some bf =>
    simp only [buyTapPhase]
    split_ifs with h1 h2 h3
    · right; exact ⟨bf, rfl, rfl⟩
    · left; rfl
    · left; rfl
    · left; rfl

/-- The SELL tap check either leaves the sell gap slot unchanged or marks
the stored gap tapped, keeping its bounds and creation time. -/
theorem sellTapPhase_sell_fvg_cases (st : SymState) (c : Candle) :
    (sellTapPhase st c).sell_fvg = st.sell_fvg ∨
    ∃ sf, st.sell_fvg = some sf ∧
      (sellTapPhase st c).sell_fvg = some (FVG.mk sf.low sf.high true sf.created_at) := by
  obtain ⟨bfv, sfv, btr, strd, lct, bft, sft⟩ := st
  cases sfv with
  | none => left; simp [sellTapPhase]
  | some sf =>
    simp only [sellTapPhase]
    split_ifs with h1 h2 h3
    · right; exact ⟨sf, rfl, rfl⟩
    · left; rfl
    · left; rfl
    · left; rfl

/-- The BUY invalidation either leaves the buy gap slot unchanged or
empties it. -/
theorem buyInvalidationPhase_buy_fvg_cases (st : SymState) (c : Candle) :
    (buyInvalidationPhase st c).buy_fvg = st.buy_fvg ∨
    (buyInvalidationPhase st c).buy_fvg = none := by
  obtain ⟨bfv, sfv, btr, strd, lct, bft, sft⟩ := st
  cases bfv with
  | none => left; simp [buyInvalidationPhase]
  | some bf =>
    simp only [buyInvalidationPhase]
    split_ifs with h1
    · right; rfl
    · left; rfl

/-- The SELL invalidation either leaves the sell gap slot unchanged or
empties it. -/
theorem sellInvalidationPhase_sell_fvg_cases (st : SymState) (c : Candle) :
    (sellInvalidationPhase st c).sell_fvg = st.sell_fvg ∨
    (sellInvalidationPhase st c).sell_fvg = none := by
  obtain ⟨bfv, sfv, btr, strd, lct, bft, sft⟩ := st
  cases sfv with
  | none => left; simp [sellInvalidationPhase]
  | some sf =>
    simp only [sellInvalidationPhase]
    split_ifs with h1
    · right; rfl
    · left; rfl

/-- The BUY confirmation either leaves the buy gap slot unchanged or
empties it. -/
theorem buyConfirmPhase_buy_fvg_cases (st : SymState) (c : Candle) :
    (buyConfirmPhase st c).buy_fvg = st.buy_fvg ∨
    (buyConfirmPhase st c).buy_fvg = none := by
  obtain ⟨bfv, sfv, btr, strd, lct, bft, sft⟩ := st
  cases bfv with
  | none => left; simp [buyConfirmPhase]
  | some bf =>
    simp only [buyConfirmPhase]
    split_ifs with h1 h2 h3
    · right; rfl
    · right; rfl
    · left; rfl
    · left; rfl

/-- The SELL confirmation either leaves the sell gap slot unchanged or
empties it. -/
theorem sellConfirmPhase_sell_fvg_cases (st : SymState) (c : Candle) :
    (sellConfirmPhase st c).sell_fvg = st.sell_fvg ∨
    (sellConfirmPhase st c).sell_fvg = none := by
  obtain ⟨bfv, sfv, btr, strd, lct, bft, sft⟩ := st
  cases sfv with
  | none => left; simp [sellConfirmPhase]
  | some sf =>
    simp only [sellConfirmPhase]
    split_ifs with h1 h2 h3
    · right; rfl
    · right; rfl
    · left; rfl
    · left; rfl

/-- Through the phase pipeline of one processed candle, every gap in the
buy slot is either already tapped or was created on this candle. -/
theorem pipeline_buy_gap_invariant (s : SymState) (p2 p1 : Candle)
    (h0 : ∀ g, s.buy_fvg = some g → g.tapped = true ∨ g.created_at = p1.time) :
    ∀ g, (sellConfirmPhase (buyConfirmPhase (sellInvalidationPhase
      (buyInvalidationPhase (sellTapPhase (buyTapPhase (sellFvgPhase
      (buyFvgPhase s p2 p1) p2 p1) p1) p1) p1) p1) p1) p1).buy_fvg = some g →
      g.tapped = true ∨ g.created_at = p1.time := by
  have h2 : ∀ g, (buyFvgPhase s p2 p1).buy_fvg = some g →
      g.tapped = true ∨ g.created_at = p1.time := by
    intro g hg
    rcases buyFvgPhase_buy_fvg_cases s p2 p1 with h | h
    · rw [h] at hg
      exact h0 g hg
    · rw [h] at hg
      injection hg with e
      subst e
      right
      rfl
  have h3 : ∀ g, (sellFvgPhase (buyFvgPhase s p2 p1) p2 p1).buy_fvg = some g →
      g.tapped = true ∨ g.created_at = p1.time := by
    intro g hg
    rw [sellFvgPhase_buy_fvg] at hg
    exact h2 g hg
  have h4 : ∀ g, (buyTapPhase (sellFvgPhase (buyFvgPhase s p2 p1) p2 p1)
      p1).buy_fvg = some g → g.tapped = true ∨ g.created_at = p1.time := by
    intro g hg
    rcases buyTapPhase_buy_fvg_cases (sellFvgPhase (buyFvgPhase s p2 p1) p2 p1) p1
      with h | ⟨g0, hg0, h⟩
    · rw [h] at hg
      exact h3 g hg
    · rw [h] at hg
      injection hg with e
      subst e
      left
      rfl
  have h5 : ∀ g, (sellTapPhase (buyTapPhase (sellFvgPhase (buyFvgPhase s p2 p1)
      p2 p1) p1) p1).buy_fvg = some g →
      g.tapped = true ∨ g.created_at = p1.time := by
    intro g hg
    rw [sellTapPhase_buy_fvg] at hg
    exact h4 g hg
  have h6 : ∀ g, (buyInvalidationPhase (sellTapPhase (buyTapPhase (sellFvgPhase
      (buyFvgPhase s p2 p1) p2 p1) p1) p1) p1).buy_fvg = some g →
      g.tapped = true ∨ g.created_at = p1.time := by
    intro g hg
    rcases buyInvalidationPhase_buy_fvg_cases (sellTapPhase (buyTapPhase
      (sellFvgPhase (buyFvgPhase s p2 p1) p2 p1) p1) p1) p1 with h | h
    · rw [h] at hg
      exact h5 g hg
    · rw [h] at hg
      cases hg
  have h7 : ∀ g, (sellInvalidationPhase (buyInvalidationPhase (sellTapPhase
      (buyTapPhase (sellFvgPhase (buyFvgPhase s p2 p1) p2 p1) p1) p1) p1)
      p1).buy_fvg = some g → g.tapped = true ∨ g.created_at = p1.time := by
    intro g hg
    rw [sellInvalidationPhase_buy_fvg] at hg
    exact h6 g hg
  have h8 : ∀ g, (buyConfirmPhase (sellInvalidationPhase (buyInvalidationPhase
      (sellTapPhase (buyTapPhase (sellFvgPhase (buyFvgPhase s p2 p1) p2 p1) p1)
      p1) p1) p1) p1).buy_fvg = some g →
      g.tapped = true ∨ g.created_at = p1.time := by
    intro g hg
    rcases buyConfirmPhase_buy_fvg_cases (sellInvalidationPhase
      (buyInvalidationPhase (sellTapPhase (buyTapPhase (sellFvgPhase
      (buyFvgPhase s p2 p1) p2 p1) p1) p1) p1) p1) p1 with h | h
    · rw [h] at hg
      exact h7 g hg
    · rw [h] at hg
      cases hg
  intro g hg
  rw [sellConfirmPhase_buy_fvg] at hg
  exact h8 g hg

/-- Through the phase pipeline of one processed candle, every gap in the
sell slot is either already tapped or was created on this candle. -/
theorem pipeline_sell_gap_invariant (s : SymState) (p2 p1 : Candle)
    (h0 : ∀ g, s.sell_fvg = some g → g.tapped = true ∨ g.created_at = p1.time) :
    ∀ g, (sellConfirmPhase (buyConfirmPhase (sellInvalidationPhase
      (buyInvalidationPhase (sellTapPhase (buyTapPhase (sellFvgPhase
      (buyFvgPhase s p2 p1) p2 p1) p1) p1) p1) p1) p1) p1).sell_fvg = some g →
      g.tapped = true ∨ g.created_at = p1.time := by
  have h2 : ∀ g, (buyFvgPhase s p2 p1).sell_fvg = some g →
      g.tapped = true ∨ g.created_at = p1.time := by
    intro g hg
    rw [buyFvgPhase_sell_fvg] at hg
    exact h0 g hg
  have h3 : ∀ g, (sellFvgPhase (buyFvgPhase s p2 p1) p2 p1).sell_fvg = some g →
      g.tapped = true ∨ g.created_at = p1.time := by
    intro g hg
    rcases sellFvgPhase_sell_fvg_cases (buyFvgPhase s p2 p1) p2 p1 with h | h
    · rw [h] at hg
      exact h2 g hg
    · rw [h] at hg
      injection hg with e
      subst e
      right
      rfl
  have h4 : ∀ g, (buyTapPhase (sellFvgPhase (buyFvgPhase s p2 p1) p2 p1)
      p1).sell_fvg = some g → g.tapped = true ∨ g.created_at = p1.time := by
    intro g hg
    rw [buyTapPhase_sell_fvg] at hg
    exact h3 g hg
  have h5 : ∀ g, (sellTapPhase (buyTapPhase (sellFvgPhase (buyFvgPhase s p2 p1)
      p2 p1) p1) p1).sell_fvg = some g →
      g.tapped = true ∨ g.created_at = p1.time := by
    intro g hg
    rcases sellTapPhase_sell_fvg_cases (buyTapPhase (sellFvgPhase (buyFvgPhase
      s p2 p1) p2 p1) p1) p1 with h | ⟨g0, hg0, h⟩
    · rw [h] at hg
      exact h4 g hg
    · rw [h] at hg
      injection hg with e
      subst e
      left
      rfl
  have h6 : ∀ g, (buyInvalidationPhase (sellTapPhase (buyTapPhase (sellFvgPhase
      (buyFvgPhase s p2 p1) p2 p1) p1) p1) p1).sell_fvg = some g →
      g.tapped = true ∨ g.created_at = p1.time := by
    intro g hg
    rw [buyInvalidationPhase_sell_fvg] at hg
    exact h5 g hg
  have h7 : ∀ g, (sellInvalidationPhase (buyInvalidationPhase (sellTapPhase
      (buyTapPhase (sellFvgPhase (buyFvgPhase s p2 p1) p2 p1) p1) p1) p1)
      p1).sell_fvg = some g → g.tapped = true ∨ g.created_at = p1.time := by
    intro g hg
    rcases sellInvalidationPhase_sell_fvg_cases (buyInvalidationPhase
      (sellTapPhase (buyTapPhase (sellFvgPhase (buyFvgPhase s p2 p1) p2 p1) p1)
      p1) p1) p1 with h | h
    · rw [h] at hg
      exact h6 g hg
    · rw [h] at hg
      cases hg
  have h8 : ∀ g, (buyConfirmPhase (sellInvalidationPhase (buyInvalidationPhase
      (sellTapPhase (buyTapPhase (sellFvgPhase (buyFvgPhase s p2 p1) p2 p1) p1)
      p1) p1) p1) p1).sell_fvg = some g →
      g.tapped = true ∨ g.created_at = p1.time := by
    intro g hg
    rw [buyConfirmPhase_sell_fvg] at hg
    exact h7 g hg
  intro g hg
  rcases sellConfirmPhase_sell_fvg_cases (buyConfirmPhase (sellInvalidationPhase
    (buyInvalidationPhase (sellTapPhase (buyTapPhase (sellFvgPhase (buyFvgPhase
    s p2 p1) p2 p1) p1) p1) p1) p1) p1) p1 with h | h
  · rw [h] at hg
    exact h8 g hg
  · rw [h] at hg
    cases hg

/-- C4: the tap check sets a stored gap's `tapped` flag exactly when the
candle is not the gap's detection candle and its `[low, high]` range
overlaps the gap bounds inclusively (keeping bounds and creation time),
and through a full processed candle a tapped gap that survives with its
creation time (so it was not replaced by a fresh detection, which carries
the new candle's creation time) never reverts to untapped. -/
theorem tapped_flag_transition (st : SymState) (prev2 prev1 c : Candle) :
    (∀ bf, st.buy_fvg = some bf →
      (buyTapPhase st c).buy_fvg = some (FVG.mk bf.low bf.high
        (bf.tapped || (decide (some c.time ≠ st.buy_fvg_candle_time) &&
          (decide (c.low ≤ bf.high) && decide (c.high ≥ bf.low)))) bf.created_at))
    ∧ (∀ sf, st.sell_fvg = some sf →
      (sellTapPhase st c).sell_fvg = some (FVG.mk sf.low sf.high
        (sf.tapped || (decide (some c.time ≠ st.sell_fvg_candle_time) &&
          (decide (c.low ≤ sf.high) && decide (c.high ≥ sf.low)))) sf.created_at))
    ∧ (∀ bf bf', st.buy_fvg = some bf → bf.tapped = true →
        bf.created_at ≠ prev1.time →
        (handle_symbol_step st prev2 prev1).buy_fvg = some bf' →
        bf'.created_at = bf.created_at → bf'.tapped = true)
    ∧ (∀ sf sf', st.sell_fvg = some sf → sf.tapped = true →
        sf.created_at ≠ prev1.time →
        (handle_symbol_step st prev2 prev1).sell_fvg = some sf' →
        sf'.created_at = sf.created_at → sf'.tapped = true) := by
  refine ⟨?_, ?_, ?_, ?_⟩
  · intro bf hbf
    obtain ⟨bfv, sfv, btr, strd, lct, bft, sft⟩ := st
    change bfv = some bf at hbf
    subst hbf
    obtain ⟨l, hq, t, ca⟩ := bf
    cases t
    · by_cases h1 : some c.time ≠ bft
      · by_cases h2 : c.low ≤ hq
        · by_cases h3 : c.high ≥ l
          · simp [buyTapPhase, h1, h2, h3]
          · simp [buyTapPhase, h1, h2, h3]
        · simp [buyTapPhase, h1, h2]
      · simp [buyTapPhase, h1]
    · simp [buyTapPhase]
  · intro sf hsf
    obtain ⟨bfv, sfv, btr, strd, lct, bft, sft⟩ := st
    change sfv = some sf at hsf
    subst hsf
    obtain ⟨l, hq, t, ca⟩ := sf
    cases t
    · by_cases h1 : some c.time ≠ sft
      · by_cases h2 : c.low ≤ hq
        · by_cases h3 : c.high ≥ l
          · simp [sellTapPhase, h1, h2, h3]
          · simp [sellTapPhase, h1, h2, h3]
        · simp [sellTapPhase, h1, h2]
      · simp [sellTapPhase, h1]
    · simp [sellTapPhase]
  · intro bf bf' hbf ht hnew hres hid
    unfold handle_symbol_step at hres
    by_cases hstale : prev1.time = st.last_candle_time
    · rw [if_pos hstale] at hres
      rw [hbf] at hres
      injection hres with e
      subst e
      exact ht
    · rw [if_neg hstale] at hres
      have h0 : ∀ g, ({ st with last_candle_time := prev1.time } : SymState).buy_fvg
          = some g → g.tapped = true ∨ g.created_at = prev1.time := by
        intro g hg
        have hg2 : st.buy_fvg = some g := hg
        rw [hbf] at hg2
        injection hg2 with e
        subst e
        left
        exact ht
      rcases pipeline_buy_gap_invariant _ prev2 prev1 h0 bf' hres with h | h
      · exact h
      · exact absurd (hid.symm.trans h) hnew
  · intro sf sf' hsf ht hnew hres hid
    unfold handle_symbol_step at hres
    by_cases hstale : prev1.time = st.last_candle_time
    · rw [if_pos hstale] at hres
      rw [hsf] at hres
      injection hres with e
      subst e
      exact ht
    · rw [if_neg hstale] at hres
      have h0 : ∀ g, ({ st with last_candle_time := prev1.time } : SymState).sell_fvg
          = some g → g.tapped = true ∨ g.created_at = prev1.time := by
        intro g hg
        have hg2 : st.sell_fvg = some g := hg
        rw [hsf] at hg2
        injection hg2 with e
        subst e
        left
        exact ht
      rcases pipeline_sell_gap_invariant _ prev2 prev1 h0 sf' hres with h | h
      · exact h
      · exact absurd (hid.symm.trans h) hnew

/-- Witness for C4: an untapped gap [10, 51/5] detected at time 1 becomes
tapped on a later candle whose range [101/10, 103/10] overlaps it. -/
theorem tapped_flag_transition_witness :
    (buyTapPhase
      (SymState.mk (some (FVG.mk 10 (51/5) false 1)) none none none 0 (some 1) none)
      (Candle.mk 2 0 (103/10) (101/10) (51/10))).buy_fvg =
      some (FVG.mk 10 (51/5) true 1) := by
  rw [(tapped_flag_transition
    (SymState.mk (some (FVG.mk 10 (51/5) false 1)) none none none 0 (some 1) none)
    (Candle.mk 2 0 (103/10) (101/10) (51/10))
    (Candle.mk 2 0 (103/10) (101/10) (51/10))
    (Candle.mk 2 0 (103/10) (101/10) (51/10))).1 (FVG.mk 10 (51/5) false 1) rfl]
  norm_num

end FVGBot
